import Mathlib

/-!
Verification of the homework-status polling bot (`homework.py`, `exceptions.py`).

The Python program is shallowly embedded: JSON-like Python values become the
inductive `PyValue`; each Python exception class becomes a constructor of
`PyError` carrying its message string; the functions `send_message`,
`get_api_answer`, `check_response` and `parse_status` become Lean functions of
the same names; the body of `main`'s `while True:` loop becomes the per-cycle
step function `runCycle` over an explicit `PollState`, with the network and
Telegram side effects supplied by a `CycleEnv` environment per cycle.
-/

/-- A Python value as it appears in the bot's data flow: `None`, integers,
strings, lists, and string-keyed dicts (JSON-shaped). -/
inductive PyValue where
  | none : PyValue
  | int (n : Int) : PyValue
  | str (s : String) : PyValue
  | list (xs : List PyValue) : PyValue
  | dict (entries : List (String × PyValue)) : PyValue

/-- Python `x is None`. -/
def PyValue.isNone : PyValue → Bool
  | .none => true
  | _ => false

/-- Python `isinstance(x, dict)`. -/
def PyValue.isDict : PyValue → Bool
  | .dict _ => true
  | _ => false

/-- Python `isinstance(x, list)`. -/
def PyValue.isList : PyValue → Bool
  | .list _ => true
  | _ => false

/-- Python `k in d` for a dict `d` (false on non-dicts; the code only uses it
on values already known to be dicts). -/
def PyValue.hasKey : PyValue → String → Bool
  | .dict es, k => es.any (fun e => e.1 == k)
  | _, _ => false

/-- Python `d.get(k)` (and `d[k]` under a key-presence guard): the stored value,
or `None` when the key is absent. -/
def PyValue.getItemD : PyValue → String → PyValue
  | .dict es, k =>
      match es.lookup k with
      | some v => v
      | Option.none => .none
  | _, _ => .none

/-- Python type name, as used in `AttributeError` diagnostics. -/
def PyValue.typeName : PyValue → String
  | .none => "NoneType"
  | .int _ => "int"
  | .str _ => "str"
  | .list _ => "list"
  | .dict _ => "dict"

/-- Python truthiness of the values in `PyValue` (used by
`current_timestamp or int(time.time())`). -/
def pyTruthy : PyValue → Bool
  | .none => false
  | .int n => n != 0
  | .str s => s != ""
  | .list xs => !xs.isEmpty
  | .dict es => !es.isEmpty

/-- Python `repr` restricted to `PyValue` (strings quoted, containers
rendered element-wise). -/
def pyRepr : PyValue → String
  | .none => "None"
  | .int n => toString n
  | .str s => "\x27" ++ s ++ "\x27"
  | .list xs => "[" ++ String.intercalate ", " (pyReprList xs) ++ "]"
  | .dict es => "\x7b" ++ String.intercalate ", " (pyReprEntries es) ++ "\x7d"
where
  pyReprList : List PyValue → List String
    | [] => []
    | x :: xs => pyRepr x :: pyReprList xs
  pyReprEntries : List (String × PyValue) → List String
    | [] => []
    | e :: es => ("\x27" ++ e.1 ++ "\x27: " ++ pyRepr e.2) :: pyReprEntries es

/-- Python `str` / f-string formatting of a `PyValue`. -/
def pyStr : PyValue → String
  | .str s => s
  | v => pyRepr v

/-- The Python exceptions that occur in the program, each carrying the message
it was constructed with. The first six come from the bot's own exception
module; `typeError`, `keyError` and `attributeError` are the builtins it
raises or triggers; `requestException` stands for a transport failure raised
inside `requests.get`. -/
inductive PyError where
  | getApiError (msg : String) : PyError
  | getApiStatusCodIsNot200 (msg : String) : PyError
  | sendMessageFailure (msg : String) : PyError
  | incorrectApiAnswer (msg : String) : PyError
  | noHomeworkInfo (msg : String) : PyError
  | emptyResponse (msg : String) : PyError
  | typeError (msg : String) : PyError
  | keyError (msg : String) : PyError
  | attributeError (msg : String) : PyError
  | requestException (msg : String) : PyError
deriving DecidableEq

/-- Python `str(error)` as used by `f'Сбой в работе программы: {error}'`:
the message for ordinary single-argument exceptions, but the `repr` of the
message for `KeyError` (CPython's `KeyError.__str__` quotes its argument). -/
def PyError.toText : PyError → String
  | .keyError m => "\x27" ++ m ++ "\x27"
  | .getApiError m => m
  | .getApiStatusCodIsNot200 m => m
  | .sendMessageFailure m => m
  | .incorrectApiAnswer m => m
  | .noHomeworkInfo m => m
  | .emptyResponse m => m
  | .typeError m => m
  | .attributeError m => m
  | .requestException m => m

/-- `ENDPOINT` constant of `homework.py`. -/
def ENDPOINT : String := "https://practicum.yandex.ru/api/user_api/homework_statuses/"

/-- `RETRY_TIME` constant of `homework.py`. -/
def RETRY_TIME : Nat := 600

/-- `HOMEWORK_STATUSES` catalog of `homework.py`, in source order. -/
def HOMEWORK_STATUSES : List (String × String) :=
  [("approved", "Работа проверена: ревьюеру всё понравилось. Ура!"),
   ("reviewing", "Работа взята на проверку ревьюером."),
   ("rejected", "Работа проверена: у ревьюера есть замечания.")]

/-- `send_message(bot, message)`: the Telegram call's success or failure is an
input (`ok`); on failure the function raises `SendMessageFailure` whose message
embeds the attempted text (the success and failure log lines are side effects
outside the model). -/
def send_message (message : String) (ok : Bool) : Except PyError Unit :=
  if ok then .ok ()
  else .error (.sendMessageFailure
    ("Сбой при отправке сообщения \"" ++ message ++ "\" в Telegram чат."))

/-- One cycle's network outcome for `requests.get(ENDPOINT, ...)`: either the
call raises (connection error, timeout), or it returns a status code and the
JSON body that `.json()` would produce. -/
inductive HttpOutcome where
  | transportError (msg : String) : HttpOutcome
  | response (statusCode : Nat) (body : PyValue) : HttpOutcome

/-- The body of `get_api_answer`'s `try:` block. On a transport failure the
`requests` exception propagates; on a non-200 code the function raises
`GetApiStatusCodIsNot200`. In the source the message for that raise is built
from a split f-string in which only the first literal is assigned (the second,
holding the status code, is a bare discarded expression), so the carried text
is the endpoint part with no code appended. -/
def get_api_answer_attempt (http : HttpOutcome) : Except PyError PyValue :=
  match http with
  | .transportError msg => .error (.requestException msg)
  | .response statusCode body =>
      if statusCode != 200 then
        .error (.getApiStatusCodIsNot200
          ("Статус код ответа на запрос к \"" ++ ENDPOINT ++ "\" равен "))
      else .ok body

/-- `get_api_answer(current_timestamp)`. The request parameters are computed
from the cursor (`current_timestamp or int(time.time())`), while the network
outcome itself is supplied by the environment. Any exception inside the
`try:` block — including the non-200 raise, which sits inside it — is caught
by the bare `except Exception:` and replaced by `GetApiError` with a fixed
generic message. -/
def get_api_answer (current_timestamp : PyValue) (now : Int) (http : HttpOutcome) :
    Except PyError PyValue :=
  let _timestamp := if pyTruthy current_timestamp then current_timestamp else PyValue.int now
  match get_api_answer_attempt http with
  | .ok body => .ok body
  | .error _ => .error (.getApiError "Не удалось получить информацию с сервера.")

/-- `check_response(response)`: `None` check, dict check, key-presence check,
then the `homeworks`-is-a-list check, in source order. -/
def check_response (response : PyValue) : Except PyError (List PyValue) :=
  if response.isNone then
    .error (.emptyResponse "Нет данных в ответе сервиса API.")
  else if !response.isDict then
    .error (.typeError "Получен некорректный тип данных от сервиса API.")
  else if !(response.hasKey "homeworks") || !(response.hasKey "current_date") then
    .error (.incorrectApiAnswer "Получен некорректный ответ от сервиса API.")
  else
    match response.getItemD "homeworks" with
    | .list homeworks_list => .ok homeworks_list
    | _ => .error (.typeError "В ответе сервиса API нет списка домашних работ.")

/-- `HOMEWORK_STATUSES.get(homework_status)`: a string key is looked up in the
catalog; `None` and integers are hashable and match no key; list and dict keys
make Python raise `TypeError: unhashable type`. -/
def statusesGet : PyValue → Except PyError (Option String)
  | .str s => .ok (HOMEWORK_STATUSES.lookup s)
  | .list _ => .error (.typeError "unhashable type: \x27list\x27")
  | .dict _ => .error (.typeError "unhashable type: \x27dict\x27")
  | _ => .ok Option.none

/-- `parse_status(homework)`: `.get` both fields, reject a missing name, a
missing status, then an unknown status, and otherwise format the notification
text. Calling `.get` on a non-dict raises `AttributeError`. -/
def parse_status (homework : PyValue) : Except PyError String :=
  match homework with
  | .dict es =>
      let homework_name := PyValue.getItemD (.dict es) "homework_name"
      let homework_status := PyValue.getItemD (.dict es) "status"
      if homework_name.isNone then
        .error (.keyError "Не найдено имя домашней работы в ответе API.")
      else if homework_status.isNone then
        .error (.keyError "Не найден статус домашней работы в ответе API.")
      else
        match statusesGet homework_status with
        | .error e => .error e
        | .ok Option.none =>
            .error (.keyError "Недокументированный статус домашней работы в ответе API.")
        | .ok (some verdict) =>
            .ok ("Изменился статус проверки работы \"" ++ pyStr homework_name ++ "\". " ++ verdict)
  | other =>
      .error (.attributeError
        ("\x27" ++ other.typeName ++ "\x27 object has no attribute \x27get\x27"))

/-- The Controller's mutable state across cycles of `main`'s loop:
`current_timestamp` (the cursor, later reassigned from `response.get`, hence a
`PyValue`), `last_message` (text of the last successfully sent status
notification) and `last_error` (text of the last successfully sent error
notification); the latter two start as Python `None`. -/
structure PollState where
  current_timestamp : PyValue
  last_message : Option String
  last_error : Option String

/-- Which of the two possible Telegram sends in a cycle an attempt was. -/
inductive SendKind where
  | status : SendKind
  | errorNote : SendKind
deriving DecidableEq

/-- One invocation of `send_message` during a cycle: what was sent and whether
the Telegram call succeeded. -/
structure SendAttempt where
  kind : SendKind
  message : String
  ok : Bool
deriving DecidableEq

/-- The external world of one cycle: the HTTP outcome, the Telegram outcome of
the n-th `send_message` call of the cycle, and the wall clock. -/
structure CycleEnv where
  http : HttpOutcome
  sendOk : Nat → Bool
  now : Int

/-- How a cycle ends: the loop proceeds to `time.sleep` and the next iteration
with a new state, or an exception escaped the `while True:` loop. -/
inductive CycleOutcome where
  | next (s : PollState) : CycleOutcome
  | crashed (e : PyError) : CycleOutcome

/-- The `try:` body of one iteration of `main`'s loop (lines 145-161):
fetch, validate, reject an empty homework list as `NoHomeworkInfo`, interpret
the first record, send the status text when it differs from `last_message`
(updating `last_message` only after the send returned), and reassign
`current_timestamp` from the response. Returns the new state or the raised
exception, plus the `send_message` invocations made. -/
def runCycleBody (s : PollState) (env : CycleEnv) :
    Except PyError PollState × List SendAttempt :=
  match get_api_answer s.current_timestamp env.now env.http with
  | .error e => (.error e, [])
  | .ok response =>
      match check_response response with
      | .error e => (.error e, [])
      | .ok homeworks_list =>
          match homeworks_list with
          | [] => (.error (.noHomeworkInfo "Не найдено информации о домашней работе."), [])
          | homework :: _ =>
              match parse_status homework with
              | .error e => (.error e, [])
              | .ok status_str =>
                  if some status_str ≠ s.last_message then
                    let ok := env.sendOk 0
                    let att : SendAttempt := ⟨.status, status_str, ok⟩
                    match send_message status_str ok with
                    | .error e => (.error e, [att])
                    | .ok _ =>
                        (.ok { s with
                                 last_message := some status_str,
                                 current_timestamp := response.getItemD "current_date" },
                         [att])
                  else
                    (.ok { s with current_timestamp := response.getItemD "current_date" }, [])

/-- One full iteration of `main`'s loop: the `try:` body above together with
the `except Exception as error:` handler (lines 162-168), which formats the
error, sends it when it differs from `last_error` (updating `last_error` only
after the send returned), and lets a `SendMessageFailure` raised by that very
send escape the loop. -/
def runCycle (s : PollState) (env : CycleEnv) : CycleOutcome × List SendAttempt :=
  match runCycleBody s env with
  | (.ok s2, atts) => (.next s2, atts)
  | (.error error, atts) =>
      let message := "Сбой в работе программы: " ++ error.toText
      if some message ≠ s.last_error then
        let ok := env.sendOk atts.length
        let att : SendAttempt := ⟨.errorNote, message, ok⟩
        match send_message message ok with
        | .error e => (.crashed e, atts ++ [att])
        | .ok _ => (.next { s with last_error := some message }, atts ++ [att])
      else
        (.next s, atts)

/-- The interpreted status string a cycle would produce, when fetch,
validation and interpretation all succeed on a non-empty homework list
(the observable of the dedup property). -/
def interpretedStatus (s : PollState) (env : CycleEnv) : Option String :=
  match get_api_answer s.current_timestamp env.now env.http with
  | .error _ => Option.none
  | .ok response =>
      match check_response response with
      | .error _ => Option.none
      | .ok [] => Option.none
      | .ok (homework :: _) =>
          match parse_status homework with
          | .error _ => Option.none
          | .ok status_str => some status_str

/-- Whether a send attempt was a status notification. -/
def SendAttempt.isStatus (a : SendAttempt) : Bool :=
  match a.kind with
  | .status => true
  | .errorNote => false

/-- Number of status-notification invocations among a cycle's send attempts. -/
def statusSendCount (atts : List SendAttempt) : Nat :=
  (atts.filter SendAttempt.isStatus).length

/-- Boolean substring test on strings (used to state what a diagnostic text
does or does not include). -/
def strContains (hay needle : String) : Bool :=
  (List.range (hay.data.length + 1)).any fun i => needle.data.isPrefixOf (hay.data.drop i)

/-- Whether an `Except` result is a raised `TypeError`. -/
def isTypeErrorResult {α : Type} : Except PyError α → Bool
  | .error (.typeError _) => true
  | _ => false

/-- A Telegram environment in which every send succeeds. -/
def alwaysOk : Nat → Bool := fun _ => true

/-- A Telegram environment in which every send fails. -/
def alwaysFail : Nat → Bool := fun _ => false

/-- A Telegram environment in which the first send of the cycle fails and
later sends succeed. -/
def failFirstSend : Nat → Bool := fun n => n != 0
lemma get_api_answer_ok_inv {t : PyValue} {n : Int} {http : HttpOutcome} {body : PyValue}
    (h : get_api_answer t n http = .ok body) : http = .response 200 body := by
  unfold get_api_answer get_api_answer_attempt at h
  cases http with
  | transportError msg => simp at h
  | response c b =>
      by_cases hc : c = 200
      · subst hc
        simp at h
        simp [h]
      · simp [hc] at h

lemma runCycleBody_ok_spec {s : PollState} {env : CycleEnv} {t : PollState}
    {a : List SendAttempt} (h : runCycleBody s env = (.ok t, a)) :
    t.last_error = s.last_error ∧
    ((t.last_message = s.last_message ∧ a = []) ∨
      ∃ m, t.last_message = some m ∧ a = [⟨.status, m, true⟩] ∧ some m ≠ s.last_message) := by
  unfold runCycleBody at h
  split at h
  · simp at h
  · split at h
    · simp at h
    · split at h
      · simp at h
      · split at h
        · simp at h
        · split at h
          · rename_i status_str hps hne
            by_cases hok : env.sendOk 0 = true
            · simp only [send_message, hok, if_true] at h
              simp only [Prod.mk.injEq, Except.ok.injEq] at h
              obtain ⟨ht, ha⟩ := h
              subst ht
              exact ⟨rfl, Or.inr ⟨status_str, rfl, ha.symm, hne⟩⟩
            · have hok2 : env.sendOk 0 = false := by simpa using hok
              simp [send_message, hok2] at h
          · simp only [Prod.mk.injEq, Except.ok.injEq] at h
            obtain ⟨ht, ha⟩ := h
            subst ht
            exact ⟨rfl, Or.inl ⟨rfl, ha.symm⟩⟩

lemma runCycleBody_error_spec {s : PollState} {env : CycleEnv} {e : PyError}
    {a : List SendAttempt} (h : runCycleBody s env = (.error e, a)) :
    a = [] ∨ ∃ m, a = [⟨.status, m, false⟩] ∧
      e = .sendMessageFailure ("Сбой при отправке сообщения \"" ++ m ++ "\" в Telegram чат.") := by
  unfold runCycleBody at h
  split at h
  · simp at h
    exact Or.inl h.2
  · split at h
    · simp at h
      exact Or.inl h.2
    · split at h
      · simp at h
        exact Or.inl h.2
      · split at h
        · simp at h
          exact Or.inl h.2
        · split at h
          · rename_i status_str hps hne
            by_cases hok : env.sendOk 0 = true
            · simp [send_message, hok] at h
            · have hok2 : env.sendOk 0 = false := by simpa using hok
              simp only [send_message, hok2, if_false, Bool.false_eq_true] at h
              simp only [Prod.mk.injEq, Except.error.injEq] at h
              obtain ⟨he, ha⟩ := h
              exact Or.inr ⟨status_str, ha.symm, he.symm⟩
          · simp at h

lemma runCycleBody_ok_cursor {s : PollState} {env : CycleEnv} {t : PollState}
    {a : List SendAttempt} (h : runCycleBody s env = (.ok t, a)) :
    ∃ body, env.http = .response 200 body ∧
      t.current_timestamp = body.getItemD "current_date" := by
  unfold runCycleBody at h
  split at h
  · simp at h
  · rename_i response hga
    refine ⟨response, get_api_answer_ok_inv hga, ?_⟩
    split at h
    · simp at h
    · split at h
      · simp at h
      · split at h
        · simp at h
        · split at h
          · by_cases hok : env.sendOk 0 = true
            · simp only [send_message, hok, if_true] at h
              simp only [Prod.mk.injEq, Except.ok.injEq] at h
              obtain ⟨ht, ha⟩ := h
              subst ht
              rfl
            · have hok2 : env.sendOk 0 = false := by simpa using hok
              simp [send_message, hok2] at h
          · simp only [Prod.mk.injEq, Except.ok.injEq] at h
            obtain ⟨ht, ha⟩ := h
            subst ht
            rfl

lemma interpretedStatus_some {s : PollState} {env : CycleEnv} {m : String}
    (h : interpretedStatus s env = some m) :
    ∃ response homework rest,
      get_api_answer s.current_timestamp env.now env.http = .ok response ∧
      check_response response = .ok (homework :: rest) ∧
      parse_status homework = .ok m := by
  unfold interpretedStatus at h
  split at h
  · simp at h
  · rename_i response hga
    split at h
    · simp at h
    · simp at h
    · rename_i homework rest hcr
      split at h
      · simp at h
      · rename_i status_str hps
        simp only [Option.some.injEq] at h
        subst h
        exact ⟨response, homework, rest, hga, hcr, hps⟩

lemma runCycleBody_interpreted_skip {s : PollState} {env : CycleEnv} {m : String}
    (h : interpretedStatus s env = some m) (heq : s.last_message = some m) :
    ∃ t, runCycleBody s env = (.ok t, []) ∧ t.last_message = some m ∧
      t.last_error = s.last_error := by
  obtain ⟨response, homework, rest, hga, hcr, hps⟩ := interpretedStatus_some h
  refine ⟨{ s with current_timestamp := response.getItemD "current_date" }, ?_, ?_, rfl⟩
  · simp only [runCycleBody, hga, hcr, hps]
    rw [if_neg]
    simp [heq]
  · simpa using heq

lemma runCycleBody_interpreted_send_ok {s : PollState} {env : CycleEnv} {m : String}
    (h : interpretedStatus s env = some m) (hne : s.last_message ≠ some m)
    (hok : env.sendOk 0 = true) :
    ∃ t, runCycleBody s env = (.ok t, [⟨.status, m, true⟩]) ∧ t.last_message = some m ∧
      t.last_error = s.last_error := by
  obtain ⟨response, homework, rest, hga, hcr, hps⟩ := interpretedStatus_some h
  refine ⟨{ s with last_message := some m,
                   current_timestamp := response.getItemD "current_date" }, ?_, rfl, rfl⟩
  simp only [runCycleBody, hga, hcr, hps]
  rw [if_pos (fun hh => hne hh.symm)]
  simp [send_message, hok]

lemma runCycleBody_interpreted_send_fail {s : PollState} {env : CycleEnv} {m : String}
    (h : interpretedStatus s env = some m) (hne : s.last_message ≠ some m)
    (hok : env.sendOk 0 = false) :
    runCycleBody s env =
      (.error (.sendMessageFailure
        ("Сбой при отправке сообщения \"" ++ m ++ "\" в Telegram чат.")),
       [⟨.status, m, false⟩]) := by
  obtain ⟨response, homework, rest, hga, hcr, hps⟩ := interpretedStatus_some h
  simp only [runCycleBody, hga, hcr, hps]
  rw [if_pos (fun hh => hne hh.symm)]
  simp [send_message, hok]

lemma runCycle_of_body_ok {s : PollState} {env : CycleEnv} {t : PollState}
    {a : List SendAttempt} (h : runCycleBody s env = (.ok t, a)) :
    runCycle s env = (.next t, a) := by
  simp only [runCycle, h]

lemma runCycle_of_body_error_sent {s : PollState} {env : CycleEnv} {e : PyError}
    {a : List SendAttempt} (h : runCycleBody s env = (.error e, a))
    (hne : some ("Сбой в работе программы: " ++ e.toText) ≠ s.last_error)
    (hok : env.sendOk a.length = true) :
    runCycle s env =
      (.next { s with last_error := some ("Сбой в работе программы: " ++ e.toText) },
       a ++ [⟨.errorNote, "Сбой в работе программы: " ++ e.toText, true⟩]) := by
  simp only [runCycle, h]
  rw [if_pos hne]
  simp [send_message, hok]

lemma runCycle_of_body_error_send_failed {s : PollState} {env : CycleEnv} {e : PyError}
    {a : List SendAttempt} (h : runCycleBody s env = (.error e, a))
    (hne : some ("Сбой в работе программы: " ++ e.toText) ≠ s.last_error)
    (hok : env.sendOk a.length = false) :
    runCycle s env =
      (.crashed (.sendMessageFailure
        ("Сбой при отправке сообщения \"" ++ ("Сбой в работе программы: " ++ e.toText) ++
          "\" в Telegram чат.")),
       a ++ [⟨.errorNote, "Сбой в работе программы: " ++ e.toText, false⟩]) := by
  simp only [runCycle, h]
  rw [if_pos hne]
  simp [send_message, hok]

lemma runCycle_of_body_error_deduped {s : PollState} {env : CycleEnv} {e : PyError}
    {a : List SendAttempt} (h : runCycleBody s env = (.error e, a))
    (heq : some ("Сбой в работе программы: " ++ e.toText) = s.last_error) :
    runCycle s env = (.next s, a) := by
  simp only [runCycle, h]
  rw [if_neg (fun hh => hh heq)]
lemma string_append_assoc (a b c : String) : a ++ b ++ c = a ++ (b ++ c) := by
  apply String.ext
  simp [String.data_append]

/-- C3 (amended): on every transport failure and on every non-200 HTTP status,
`get_api_answer` fails with the single error kind `GetApiError`, carrying the
fixed diagnostic text `Не удалось получить информацию с сервера.` (the
endpoint/status detail is only logged with the swallowed intermediate
exception, not carried on the escaping error). -/
theorem fetch_failure_single_error_kind :
    (∀ (t : PyValue) (n : Int) (msg : String),
      get_api_answer t n (.transportError msg) =
        .error (.getApiError "Не удалось получить информацию с сервера.")) ∧
    (∀ (t : PyValue) (n : Int) (c : Nat) (body : PyValue), c ≠ 200 →
      get_api_answer t n (.response c body) =
        .error (.getApiError "Не удалось получить информацию с сервера.")) := by
  constructor
  · intro t n msg
    simp [get_api_answer, get_api_answer_attempt]
  · intro t n c body hc
    simp [get_api_answer, get_api_answer_attempt, hc]

/-- C3 witness: a timeout and a 404 both escape as the same `GetApiError`. -/
theorem fetch_failure_single_error_kind_witness :
    get_api_answer (PyValue.int 0) 7 (.transportError "timeout") =
      .error (.getApiError "Не удалось получить информацию с сервера.") ∧
    get_api_answer (PyValue.int 0) 7 (.response 404 (PyValue.dict [])) =
      .error (.getApiError "Не удалось получить информацию с сервера.") :=
  ⟨fetch_failure_single_error_kind.1 (PyValue.int 0) 7 "timeout",
   fetch_failure_single_error_kind.2 (PyValue.int 0) 7 404 (PyValue.dict []) (by decide)⟩

/-- C3 counterexample: at status 404 the escaping error's carried text contains
neither the endpoint nor the status code, refuting the claim that the
diagnostic includes them. -/
theorem fetch_error_text_lacks_endpoint_cex :
    get_api_answer (PyValue.int 0) 0 (.response 404 (PyValue.dict [])) =
      .error (.getApiError "Не удалось получить информацию с сервера.") ∧
    strContains "Не удалось получить информацию с сервера." ENDPOINT = false ∧
    strContains "Не удалось получить информацию с сервера." "404" = false := by
  refine ⟨rfl, ?_, ?_⟩ <;> decide

/-- C4 (amended): `check_response` maps `None` to `EmptyResponse`; a non-`None`
non-mapping to `TypeError` (the malformed-shape error); a mapping missing
`homeworks` or `current_date` to `IncorrectApiAnswer` (the missing-key error);
a mapping with both keys whose `homeworks` value is not a list to `TypeError`;
and a mapping with both keys whose `homeworks` value is a list to that list
verbatim. (The malformed-shape error for a non-sequence `homeworks` is
reached only when both keys are present, since the key-presence check runs
first.) -/
theorem check_response_shape_errors :
    (check_response PyValue.none =
      .error (.emptyResponse "Нет данных в ответе сервиса API.")) ∧
    (∀ v : PyValue, v.isNone = false → v.isDict = false →
      check_response v =
        .error (.typeError "Получен некорректный тип данных от сервиса API.")) ∧
    (∀ es : List (String × PyValue),
      (PyValue.dict es).hasKey "homeworks" = false ∨
        (PyValue.dict es).hasKey "current_date" = false →
      check_response (.dict es) =
        .error (.incorrectApiAnswer "Получен некорректный ответ от сервиса API.")) ∧
    (∀ (es : List (String × PyValue)) (v : PyValue),
      (PyValue.dict es).hasKey "homeworks" = true →
      (PyValue.dict es).hasKey "current_date" = true →
      (PyValue.dict es).getItemD "homeworks" = v → v.isList = false →
      check_response (.dict es) =
        .error (.typeError "В ответе сервиса API нет списка домашних работ.")) ∧
    (∀ (es : List (String × PyValue)) (xs : List PyValue),
      (PyValue.dict es).hasKey "homeworks" = true →
      (PyValue.dict es).hasKey "current_date" = true →
      (PyValue.dict es).getItemD "homeworks" = .list xs →
      check_response (.dict es) = .ok xs) := by
  refine ⟨rfl, ?_, ?_, ?_, ?_⟩
  · intro v h1 h2
    simp [check_response, h1, h2]
  · intro es h
    rcases h with h | h <;> simp [check_response, h, PyValue.isNone, PyValue.isDict]
  · intro es v h1 h2 hget hv
    cases v with
    | list xs => simp [PyValue.isList] at hv
    | none => simp [check_response, h1, h2, hget, PyValue.isNone, PyValue.isDict]
    | int n => simp [check_response, h1, h2, hget, PyValue.isNone, PyValue.isDict]
    | str s => simp [check_response, h1, h2, hget, PyValue.isNone, PyValue.isDict]
    | dict d => simp [check_response, h1, h2, hget, PyValue.isNone, PyValue.isDict]
  · intro es xs h1 h2 hget
    simp [check_response, h1, h2, hget, PyValue.isNone, PyValue.isDict]

/-- C4 witness: the spec's own three examples, plus a well-shaped mapping. -/
theorem check_response_shape_errors_witness :
    check_response PyValue.none =
      .error (.emptyResponse "Нет данных в ответе сервиса API.") ∧
    check_response (PyValue.dict [("homeworks", PyValue.dict []), ("current_date", PyValue.int 1)]) =
      .error (.typeError "В ответе сервиса API нет списка домашних работ.") ∧
    check_response (PyValue.dict [("current_date", PyValue.int 1)]) =
      .error (.incorrectApiAnswer "Получен некорректный ответ от сервиса API.") ∧
    check_response (PyValue.dict [("homeworks", PyValue.list [PyValue.int 3]), ("current_date", PyValue.int 1)]) =
      .ok [PyValue.int 3] :=
  ⟨check_response_shape_errors.1,
   check_response_shape_errors.2.2.2.1
     [("homeworks", PyValue.dict []), ("current_date", PyValue.int 1)]
     (PyValue.dict []) rfl rfl rfl rfl,
   check_response_shape_errors.2.2.1 [("current_date", PyValue.int 1)] (Or.inl rfl),
   check_response_shape_errors.2.2.2.2
     [("homeworks", PyValue.list [PyValue.int 3]), ("current_date", PyValue.int 1)]
     [PyValue.int 3] rfl rfl rfl⟩

/-- C4 counterexample: a mapping whose `homeworks` value is present but not a
sequence, with `current_date` missing, fails with the missing-key error
`IncorrectApiAnswer`, not with `TypeError` as the claim's malformed-shape
clause states. -/
theorem check_response_malformed_precedence_cex :
    check_response (PyValue.dict [("homeworks", PyValue.int 5)]) =
      .error (.incorrectApiAnswer "Получен некорректный ответ от сервиса API.") ∧
    isTypeErrorResult (check_response (PyValue.dict [("homeworks", PyValue.int 5)])) = false :=
  ⟨rfl, rfl⟩

/-- C10: for every mapping in which `homeworks` is present but not a list and
`current_date` is missing, `check_response` raises the missing-key error
`IncorrectApiAnswer`, not the malformed-shape `TypeError`: the key-presence
check runs before the `homeworks` type check. -/
theorem check_response_key_check_precedes_type_check
    (es : List (String × PyValue))
    (hhw : (PyValue.dict es).hasKey "homeworks" = true)
    (hnl : ((PyValue.dict es).getItemD "homeworks").isList = false)
    (hcd : (PyValue.dict es).hasKey "current_date" = false) :
    check_response (.dict es) =
      .error (.incorrectApiAnswer "Получен некорректный ответ от сервиса API.") ∧
    isTypeErrorResult (check_response (.dict es)) = false := by
  have h : check_response (.dict es) =
      .error (.incorrectApiAnswer "Получен некорректный ответ от сервиса API.") := by
    simp [check_response, hcd, PyValue.isNone, PyValue.isDict]
  exact ⟨h, by rw [h]; rfl⟩

/-- C10 witness: `{"homeworks": 5}` (no `current_date`, non-list value). -/
theorem check_response_key_check_precedes_type_check_witness :
    check_response (PyValue.dict [("homeworks", PyValue.int 5)]) =
      .error (.incorrectApiAnswer "Получен некорректный ответ от сервиса API.") ∧
    isTypeErrorResult (check_response (PyValue.dict [("homeworks", PyValue.int 5)])) = false :=
  check_response_key_check_precedes_type_check [("homeworks", PyValue.int 5)] rfl rfl rfl

/-- C8: for every homework record (a mapping, possibly with extra fields, in
any order) in which `homework_name` holds a string and `status` holds a string
that is none of the three catalog keys, `parse_status` fails with the
undocumented-status `KeyError` — a hard error, never a skip or a success. -/
theorem parse_status_unknown_status_hard_error
    (es : List (String × PyValue)) (name status : String)
    (hn : (PyValue.dict es).getItemD "homework_name" = .str name)
    (hs : (PyValue.dict es).getItemD "status" = .str status)
    (h1 : status ≠ "approved") (h2 : status ≠ "reviewing") (h3 : status ≠ "rejected") :
    parse_status (.dict es) =
      .error (.keyError "Недокументированный статус домашней работы в ответе API.") := by
  have e1 : (status == "approved") = false := by simp [h1]
  have e2 : (status == "reviewing") = false := by simp [h2]
  have e3 : (status == "rejected") = false := by simp [h3]
  have hl : HOMEWORK_STATUSES.lookup status = Option.none := by
    simp [HOMEWORK_STATUSES, List.lookup, e1, e2, e3]
  simp [parse_status, hn, hs, PyValue.isNone, statusesGet, hl]

/-- C8 witness: the spec's example `{"homework_name": "x", "status": "archived"}`. -/
theorem parse_status_unknown_status_hard_error_witness :
    parse_status (PyValue.dict [("homework_name", PyValue.str "x"), ("status", PyValue.str "archived")]) =
      .error (.keyError "Недокументированный статус домашней работы в ответе API.") :=
  parse_status_unknown_status_hard_error
    [("homework_name", PyValue.str "x"), ("status", PyValue.str "archived")]
    "x" "archived" rfl rfl (by decide) (by decide) (by decide)

/-- C9: `parse_status` is a pure function of the record: for every record whose
`homework_name` holds a string and whose `status` holds a catalog key, its
value is one fixed string determined by the record, and that string contains
the literal homework name and the catalog verdict text as substrings. -/
theorem parse_status_deterministic_format
    (es : List (String × PyValue)) (name status verdict : String)
    (hn : (PyValue.dict es).getItemD "homework_name" = .str name)
    (hs : (PyValue.dict es).getItemD "status" = .str status)
    (hv : HOMEWORK_STATUSES.lookup status = some verdict) :
    parse_status (.dict es) =
      .ok ("Изменился статус проверки работы \"" ++ name ++ "\". " ++ verdict) ∧
    (∃ p q, "Изменился статус проверки работы \"" ++ name ++ "\". " ++ verdict =
      p ++ name ++ q) ∧
    (∃ p q, "Изменился статус проверки работы \"" ++ name ++ "\". " ++ verdict =
      p ++ verdict ++ q) := by
  refine ⟨?_, ?_, ?_⟩
  · simp [parse_status, hn, hs, PyValue.isNone, statusesGet, hv, pyStr]
  · refine ⟨"Изменился статус проверки работы \"", "\". " ++ verdict, ?_⟩
    rw [string_append_assoc]
  · refine ⟨"Изменился статус проверки работы \"" ++ name ++ "\". ", "", ?_⟩
    apply String.ext
    simp [String.data_append]

/-- C9 witness: status `approved` with name `проект1`; the message embeds both
the name and the approved verdict. -/
theorem parse_status_deterministic_format_witness :
    parse_status (PyValue.dict [("homework_name", PyValue.str "проект1"), ("status", PyValue.str "approved")]) =
      .ok "Изменился статус проверки работы \"проект1\". Работа проверена: ревьюеру всё понравилось. Ура!" ∧
    strContains "Изменился статус проверки работы \"проект1\". Работа проверена: ревьюеру всё понравилось. Ура!" "проект1" = true ∧
    strContains "Изменился статус проверки работы \"проект1\". Работа проверена: ревьюеру всё понравилось. Ура!" "Работа проверена: ревьюеру всё понравилось. Ура!" = true :=
  ⟨(parse_status_deterministic_format
      [("homework_name", PyValue.str "проект1"), ("status", PyValue.str "approved")]
      "проект1" "approved" "Работа проверена: ревьюеру всё понравилось. Ура!"
      rfl rfl rfl).1,
   by decide, by decide⟩

/-- C1 (amended): if, in the per-cycle catch-all, the error notification's
`send_message` itself fails, the raised `SendMessageFailure` is NOT caught —
it escapes the `while True:` loop (the failure having been logged first is a
side effect outside the model). -/
theorem notify_failure_in_error_path_escapes_loop
    (s : PollState) (env : CycleEnv) (e : PyError) (a : List SendAttempt)
    (hb : runCycleBody s env = (.error e, a))
    (hne : some ("Сбой в работе программы: " ++ e.toText) ≠ s.last_error)
    (hok : env.sendOk a.length = false) :
    runCycle s env =
      (.crashed (.sendMessageFailure
        ("Сбой при отправке сообщения \"" ++ ("Сбой в работе программы: " ++ e.toText) ++
          "\" в Telegram чат.")),
       a ++ [⟨.errorNote, "Сбой в работе программы: " ++ e.toText, false⟩]) :=
  runCycle_of_body_error_send_failed hb hne hok

/-- C1 witness: a fetch failure followed by a failing Telegram send crashes the
loop with `SendMessageFailure`. -/
theorem notify_failure_in_error_path_escapes_loop_witness :
    runCycle ⟨PyValue.int 0, Option.none, Option.none⟩
      ⟨HttpOutcome.transportError "conn", alwaysFail, 0⟩ =
      (.crashed (.sendMessageFailure
        ("Сбой при отправке сообщения \"" ++ ("Сбой в работе программы: " ++
          (PyError.getApiError "Не удалось получить информацию с сервера.").toText) ++
          "\" в Telegram чат.")),
       [] ++ [⟨.errorNote, "Сбой в работе программы: " ++
          (PyError.getApiError "Не удалось получить информацию с сервера.").toText, false⟩]) :=
  notify_failure_in_error_path_escapes_loop
    ⟨PyValue.int 0, Option.none, Option.none⟩
    ⟨HttpOutcome.transportError "conn", alwaysFail, 0⟩
    (.getApiError "Не удалось получить информацию с сервера.") []
    rfl (by decide) rfl

/-- C1 counterexample: in a cycle whose fetch fails and whose error
notification send fails, the loop step ends in `crashed` — the
`SendMessageFailure` propagates out of the polling loop instead of being
swallowed to the log. -/
theorem notify_failure_in_error_path_swallowed_cex :
    (runCycle ⟨PyValue.int 0, Option.none, Option.none⟩
       ⟨HttpOutcome.transportError "conn", alwaysFail, 0⟩).1 =
      CycleOutcome.crashed (.sendMessageFailure
        "Сбой при отправке сообщения \"Сбой в работе программы: Не удалось получить информацию с сервера.\" в Telegram чат.") :=
  rfl

/-- C2 (amended): in a cycle whose validated homework sequence is empty, the
`NoHomeworkInfo` error is routed through the cycle's catch-all like any other
error: when its formatted text differs from `last_error`, the Notifier IS
invoked with a message derived from it (and on a successful send `last_error`
is updated) — the error is user-visible via chat, not only via the log. -/
theorem empty_homeworks_error_is_notified
    (s : PollState) (env : CycleEnv) (resp : PyValue)
    (hhttp : env.http = .response 200 resp)
    (hcr : check_response resp = .ok [])
    (hne : some "Сбой в работе программы: Не найдено информации о домашней работе." ≠ s.last_error)
    (hok : env.sendOk 0 = true) :
    runCycle s env =
      (.next { s with
                 last_error := some "Сбой в работе программы: Не найдено информации о домашней работе." },
       [⟨.errorNote, "Сбой в работе программы: Не найдено информации о домашней работе.", true⟩]) := by
  have hga : get_api_answer s.current_timestamp env.now env.http = .ok resp := by
    rw [hhttp]
    simp [get_api_answer, get_api_answer_attempt]
  have hb : runCycleBody s env =
      (.error (.noHomeworkInfo "Не найдено информации о домашней работе."), []) := by
    simp only [runCycleBody, hga, hcr]
  simpa using runCycle_of_body_error_sent hb hne hok

/-- C2 witness: an empty `homeworks` list leads to exactly one Telegram send,
carrying the formatted `NoHomeworkInfo` text. -/
theorem empty_homeworks_error_is_notified_witness :
    runCycle ⟨PyValue.int 0, Option.none, Option.none⟩
      ⟨HttpOutcome.response 200
         (PyValue.dict [("homeworks", PyValue.list []), ("current_date", PyValue.int 1)]),
       alwaysOk, 0⟩ =
      (.next { current_timestamp := PyValue.int 0, last_message := Option.none,
               last_error := some "Сбой в работе программы: Не найдено информации о домашней работе." },
       [⟨.errorNote, "Сбой в работе программы: Не найдено информации о домашней работе.", true⟩]) :=
  empty_homeworks_error_is_notified
    ⟨PyValue.int 0, Option.none, Option.none⟩
    ⟨HttpOutcome.response 200
       (PyValue.dict [("homeworks", PyValue.list []), ("current_date", PyValue.int 1)]),
     alwaysOk, 0⟩
    (PyValue.dict [("homeworks", PyValue.list []), ("current_date", PyValue.int 1)])
    rfl rfl (by decide) rfl

/-- C2 counterexample: a concrete empty-homeworks cycle in which the Notifier
is invoked with the message derived from `NoHomeworkInfo`, refuting the claim
that such an error is visible only via the log and never sent to chat. -/
theorem no_homework_info_chat_cex :
    (runCycle ⟨PyValue.int 0, Option.none, Option.none⟩
       ⟨HttpOutcome.response 200
          (PyValue.dict [("homeworks", PyValue.list []), ("current_date", PyValue.int 1)]),
        alwaysOk, 0⟩).2 =
      [⟨.errorNote, "Сбой в работе программы: Не найдено информации о домашней работе.", true⟩] :=
  rfl

/-- C5: per cycle, `last_message` and `last_error` change only immediately
after a `send_message` invocation of the corresponding kind that succeeded
(the new value being exactly the text sent), and a failed send of a kind
leaves that kind's field at its previous value. -/
theorem dedup_state_updated_only_on_send_success
    (s : PollState) (env : CycleEnv) (s2 : PollState) (atts : List SendAttempt)
    (h : runCycle s env = (.next s2, atts)) :
    (s2.last_message = s.last_message ∨
      ∃ m, s2.last_message = some m ∧ (⟨.status, m, true⟩ : SendAttempt) ∈ atts) ∧
    (s2.last_error = s.last_error ∨
      ∃ m, s2.last_error = some m ∧ (⟨.errorNote, m, true⟩ : SendAttempt) ∈ atts) ∧
    (∀ a ∈ atts, a.ok = false →
      (a.kind = .status → s2.last_message = s.last_message) ∧
      (a.kind = .errorNote → s2.last_error = s.last_error)) := by
  rcases hb : runCycleBody s env with ⟨e | t, a⟩
  · -- the cycle body raised; the catch-all handler ran
    rcases runCycleBody_error_spec hb with ha | ⟨m, ha, he⟩
    · subst ha
      simp only [runCycle, hb] at h
      split at h
      · rename_i hne
        simp only [List.length_nil] at h
        by_cases hok : env.sendOk 0 = true
        · simp only [send_message, hok, if_true] at h
          simp only [Prod.mk.injEq, CycleOutcome.next.injEq] at h
          obtain ⟨hs2, hatts⟩ := h
          subst hs2
          refine ⟨Or.inl rfl, Or.inr ⟨_, rfl, ?_⟩, ?_⟩
          · rw [← hatts]; simp
          · intro a hmem hfa
            rw [← hatts] at hmem
            simp at hmem
            subst hmem
            simp at hfa
        · have hok2 : env.sendOk 0 = false := by simpa using hok
          simp [send_message, hok2] at h
      · simp only [Prod.mk.injEq, CycleOutcome.next.injEq] at h
        obtain ⟨hs2, hatts⟩ := h
        subst hs2
        subst hatts
        exact ⟨Or.inl rfl, Or.inl rfl, by simp⟩
    · subst ha
      simp only [runCycle, hb] at h
      split at h
      · rename_i hne
        simp only [List.length_cons, List.length_nil, Nat.zero_add] at h
        by_cases hok : env.sendOk 1 = true
        · simp only [send_message, hok, if_true] at h
          simp only [Prod.mk.injEq, CycleOutcome.next.injEq] at h
          obtain ⟨hs2, hatts⟩ := h
          subst hs2
          refine ⟨Or.inl rfl, Or.inr ⟨_, rfl, ?_⟩, ?_⟩
          · rw [← hatts]; simp
          · intro a hmem hfa
            rw [← hatts] at hmem
            simp at hmem
            rcases hmem with hmem | hmem
            · subst hmem
              exact ⟨fun _ => rfl, by simp [SendAttempt.mk.injEq]⟩
            · subst hmem
              simp at hfa
        · have hok2 : env.sendOk 1 = false := by simpa using hok
          simp [send_message, hok2] at h
      · simp only [Prod.mk.injEq, CycleOutcome.next.injEq] at h
        obtain ⟨hs2, hatts⟩ := h
        subst hs2
        subst hatts
        refine ⟨Or.inl rfl, Or.inl rfl, ?_⟩
        intro a hmem hfa
        simp at hmem
        subst hmem
        exact ⟨fun _ => rfl, by simp [SendAttempt.mk.injEq]⟩
  · -- the cycle body returned normally
    have hrc := runCycle_of_body_ok hb
    rw [hrc] at h
    simp only [Prod.mk.injEq, CycleOutcome.next.injEq] at h
    obtain ⟨hs2, hatts⟩ := h
    subst hs2
    subst hatts
    obtain ⟨hle, hcase⟩ := runCycleBody_ok_spec hb
    rcases hcase with ⟨hlm, ha⟩ | ⟨m, hlm, ha, hne⟩
    · subst ha
      exact ⟨Or.inl hlm, Or.inl hle, by simp⟩
    · subst ha
      refine ⟨Or.inr ⟨m, hlm, by simp⟩, Or.inl hle, ?_⟩
      intro a hmem hfa
      simp at hmem
      subst hmem
      simp at hfa

/-- C6: per cycle, if the `try:` body failed (fetch, validation,
interpretation, or the status send), the surviving state's cursor equals the
previous cursor — the next cycle retries the same window; if the body
succeeded, the cursor equals the `current_date` value of the fetched
response. -/
theorem cursor_advance_policy
    (s : PollState) (env : CycleEnv) (s2 : PollState) (atts : List SendAttempt)
    (h : runCycle s env = (.next s2, atts)) :
    ((∃ e a, runCycleBody s env = (.error e, a)) →
      s2.current_timestamp = s.current_timestamp) ∧
    (∀ t a, runCycleBody s env = (.ok t, a) →
      ∃ body, env.http = .response 200 body ∧
        s2.current_timestamp = body.getItemD "current_date") := by
  rcases hb : runCycleBody s env with ⟨e | t, a⟩
  · constructor
    · intro _
      simp only [runCycle, hb] at h
      split at h
      · rename_i hne
        rcases hsend : send_message ("Сбой в работе программы: " ++ e.toText)
            (env.sendOk a.length) with e2 | u
        · rw [hsend] at h
          simp at h
        · rw [hsend] at h
          simp only [Prod.mk.injEq, CycleOutcome.next.injEq] at h
          obtain ⟨hs2, -⟩ := h
          subst hs2
          rfl
      · simp only [Prod.mk.injEq, CycleOutcome.next.injEq] at h
        obtain ⟨hs2, -⟩ := h
        subst hs2
        rfl
    · intro t a2 ht
      simp at ht
  · constructor
    · intro ⟨e, a2, he⟩
      simp at he
    · intro t2 a2 ht2
      simp only [Prod.mk.injEq, Except.ok.injEq] at ht2
      obtain ⟨ht, -⟩ := ht2
      subst ht
      have hrc := runCycle_of_body_ok hb
      rw [hrc] at h
      simp only [Prod.mk.injEq, CycleOutcome.next.injEq] at h
      obtain ⟨hs2, -⟩ := h
      subst hs2
      exact runCycleBody_ok_cursor hb

/-- C7 (amended): for two consecutive cycles whose interpreted status strings
are identical, provided every Telegram send of the first cycle succeeded, the
Notifier is invoked for a status notification at most once across both cycles
(the second cycle skips the send); if the first cycle's status send fails, the
dedup state is not updated and the second cycle re-attempts the send. -/
theorem status_dedup_across_consecutive_cycles
    (s : PollState) (env1 env2 : CycleEnv) (m : String) (s1 : PollState)
    (a1 : List SendAttempt) (r2 : CycleOutcome) (a2 : List SendAttempt)
    (h1 : interpretedStatus s env1 = some m)
    (hr1 : runCycle s env1 = (.next s1, a1))
    (h2 : interpretedStatus s1 env2 = some m)
    (hr2 : runCycle s1 env2 = (r2, a2))
    (hok : ∀ att ∈ a1, att.ok = true) :
    statusSendCount a1 + statusSendCount a2 ≤ 1 := by
  by_cases hsk : s.last_message = some m
  · -- first cycle deduplicates already
    obtain ⟨t, hb, htm, -⟩ := runCycleBody_interpreted_skip h1 hsk
    have hrc := runCycle_of_body_ok hb
    rw [hrc] at hr1
    simp only [Prod.mk.injEq, CycleOutcome.next.injEq] at hr1
    obtain ⟨hs1, ha1⟩ := hr1
    subst hs1
    obtain ⟨t2, hb2, -, -⟩ := runCycleBody_interpreted_skip h2 htm
    have hrc2 := runCycle_of_body_ok hb2
    rw [hrc2] at hr2
    simp only [Prod.mk.injEq] at hr2
    obtain ⟨-, ha2⟩ := hr2
    rw [← ha1, ← ha2]
    simp [statusSendCount]
  · by_cases hok0 : env1.sendOk 0 = true
    · -- first cycle sends successfully and records the message
      obtain ⟨t, hb, htm, -⟩ := runCycleBody_interpreted_send_ok h1 hsk hok0
      have hrc := runCycle_of_body_ok hb
      rw [hrc] at hr1
      simp only [Prod.mk.injEq, CycleOutcome.next.injEq] at hr1
      obtain ⟨hs1, ha1⟩ := hr1
      subst hs1
      obtain ⟨t2, hb2, -, -⟩ := runCycleBody_interpreted_skip h2 htm
      have hrc2 := runCycle_of_body_ok hb2
      rw [hrc2] at hr2
      simp only [Prod.mk.injEq] at hr2
      obtain ⟨-, ha2⟩ := hr2
      rw [← ha1, ← ha2]
      simp [statusSendCount, SendAttempt.isStatus]
    · -- the failed first send contradicts the all-sends-succeeded hypothesis
      have hok0f : env1.sendOk 0 = false := by simpa using hok0
      have hb := runCycleBody_interpreted_send_fail h1 hsk hok0f
      simp only [runCycle, hb] at hr1
      split at hr1
      · rename_i hne
        simp only [List.length_cons, List.length_nil, Nat.zero_add] at hr1
        rcases hsend : send_message
            ("Сбой в работе программы: " ++
              (PyError.sendMessageFailure
                ("Сбой при отправке сообщения \"" ++ m ++ "\" в Telegram чат.")).toText)
            (env1.sendOk 1) with e2 | u
        · rw [hsend] at hr1
          simp at hr1
        · rw [hsend] at hr1
          simp only [Prod.mk.injEq, CycleOutcome.next.injEq] at hr1
          obtain ⟨-, ha1⟩ := hr1
          have hmem : (⟨.status, m, false⟩ : SendAttempt) ∈ a1 := by
            rw [← ha1]
            simp
          have := hok _ hmem
          simp at this
      · simp only [Prod.mk.injEq, CycleOutcome.next.injEq] at hr1
        obtain ⟨-, ha1⟩ := hr1
        have hmem : (⟨.status, m, false⟩ : SendAttempt) ∈ a1 := by
          rw [← ha1]
          simp
        have := hok _ hmem
        simp at this

/-- C7 counterexample: two consecutive cycles with the identical interpreted
status string in which the first status send fails (and the error notification
succeeds, so the loop survives): the dedup state is not updated, the second
cycle re-sends, and the Notifier is invoked for a status notification twice
across the two cycles. -/
theorem status_dedup_resend_after_failure_cex :
    interpretedStatus ⟨PyValue.int 0, Option.none, Option.none⟩
        ⟨HttpOutcome.response 200
           (PyValue.dict [("homeworks", PyValue.list
              [PyValue.dict [("homework_name", PyValue.str "hw1"), ("status", PyValue.str "reviewing")]]),
            ("current_date", PyValue.int 1000)]),
         failFirstSend, 0⟩ =
      some "Изменился статус проверки работы \"hw1\". Работа взята на проверку ревьюером." ∧
    runCycle ⟨PyValue.int 0, Option.none, Option.none⟩
        ⟨HttpOutcome.response 200
           (PyValue.dict [("homeworks", PyValue.list
              [PyValue.dict [("homework_name", PyValue.str "hw1"), ("status", PyValue.str "reviewing")]]),
            ("current_date", PyValue.int 1000)]),
         failFirstSend, 0⟩ =
      (.next ⟨PyValue.int 0, Option.none,
         some "Сбой в работе программы: Сбой при отправке сообщения \"Изменился статус проверки работы \"hw1\". Работа взята на проверку ревьюером.\" в Telegram чат."⟩,
       [⟨.status, "Изменился статус проверки работы \"hw1\". Работа взята на проверку ревьюером.", false⟩,
        ⟨.errorNote, "Сбой в работе программы: Сбой при отправке сообщения \"Изменился статус проверки работы \"hw1\". Работа взята на проверку ревьюером.\" в Telegram чат.", true⟩]) ∧
    interpretedStatus
        ⟨PyValue.int 0, Option.none,
         some "Сбой в работе программы: Сбой при отправке сообщения \"Изменился статус проверки работы \"hw1\". Работа взята на проверку ревьюером.\" в Telegram чат."⟩
        ⟨HttpOutcome.response 200
           (PyValue.dict [("homeworks", PyValue.list
              [PyValue.dict [("homework_name", PyValue.str "hw1"), ("status", PyValue.str "reviewing")]]),
            ("current_date", PyValue.int 1000)]),
         alwaysOk, 0⟩ =
      some "Изменился статус проверки работы \"hw1\". Работа взята на проверку ревьюером." ∧
    runCycle
        ⟨PyValue.int 0, Option.none,
         some "Сбой в работе программы: Сбой при отправке сообщения \"Изменился статус проверки работы \"hw1\". Работа взята на проверку ревьюером.\" в Telegram чат."⟩
        ⟨HttpOutcome.response 200
           (PyValue.dict [("homeworks", PyValue.list
              [PyValue.dict [("homework_name", PyValue.str "hw1"), ("status", PyValue.str "reviewing")]]),
            ("current_date", PyValue.int 1000)]),
         alwaysOk, 0⟩ =
      (.next ⟨PyValue.int 1000,
         some "Изменился статус проверки работы \"hw1\". Работа взята на проверку ревьюером.",
         some "Сбой в работе программы: Сбой при отправке сообщения \"Изменился статус проверки работы \"hw1\". Работа взята на проверку ревьюером.\" в Telegram чат."⟩,
       [⟨.status, "Изменился статус проверки работы \"hw1\". Работа взята на проверку ревьюером.", true⟩]) ∧
    statusSendCount
        [⟨.status, "Изменился статус проверки работы \"hw1\". Работа взята на проверку ревьюером.", false⟩,
         ⟨.errorNote, "Сбой в работе программы: Сбой при отправке сообщения \"Изменился статус проверки работы \"hw1\". Работа взята на проверку ревьюером.\" в Telegram чат.", true⟩] +
      statusSendCount
        [⟨.status, "Изменился статус проверки работы \"hw1\". Работа взята на проверку ревьюером.", true⟩] = 2 :=
  ⟨rfl, rfl, rfl, rfl, rfl⟩

/-- C7 witness: a fresh state and two identical successful cycles — the first
sends the status once, the second deduplicates. -/
theorem status_dedup_across_consecutive_cycles_witness :
    statusSendCount
        [⟨.status, "Изменился статус проверки работы \"hw1\". Работа взята на проверку ревьюером.", true⟩] +
      statusSendCount ([] : List SendAttempt) ≤ 1 :=
  status_dedup_across_consecutive_cycles
    ⟨PyValue.int 0, Option.none, Option.none⟩
    ⟨HttpOutcome.response 200
       (PyValue.dict [("homeworks", PyValue.list
          [PyValue.dict [("homework_name", PyValue.str "hw1"), ("status", PyValue.str "reviewing")]]),
        ("current_date", PyValue.int 1000)]),
     alwaysOk, 0⟩
    ⟨HttpOutcome.response 200
       (PyValue.dict [("homeworks", PyValue.list
          [PyValue.dict [("homework_name", PyValue.str "hw1"), ("status", PyValue.str "reviewing")]]),
        ("current_date", PyValue.int 1000)]),
     alwaysOk, 0⟩
    "Изменился статус проверки работы \"hw1\". Работа взята на проверку ревьюером."
    ⟨PyValue.int 1000,
     some "Изменился статус проверки работы \"hw1\". Работа взята на проверку ревьюером.",
     Option.none⟩
    [⟨.status, "Изменился статус проверки работы \"hw1\". Работа взята на проверку ревьюером.", true⟩]
    (.next ⟨PyValue.int 1000,
      some "Изменился статус проверки работы \"hw1\". Работа взята на проверку ревьюером.",
      Option.none⟩)
    []
    rfl rfl rfl rfl (by decide)

/-- C5 witness: an empty-homeworks cycle whose error notification succeeds —
`last_error` is updated to exactly the successfully sent text and
`last_message` is unchanged. -/
theorem dedup_state_updated_only_on_send_success_witness :
    ((Option.none : Option String) = Option.none ∨
      ∃ m, (Option.none : Option String) = some m ∧
        (⟨.status, m, true⟩ : SendAttempt) ∈
          [(⟨.errorNote, "Сбой в работе программы: Не найдено информации о домашней работе.", true⟩ : SendAttempt)]) ∧
    (some "Сбой в работе программы: Не найдено информации о домашней работе." = (Option.none : Option String) ∨
      ∃ m, some "Сбой в работе программы: Не найдено информации о домашней работе." = some m ∧
        (⟨.errorNote, m, true⟩ : SendAttempt) ∈
          [(⟨.errorNote, "Сбой в работе программы: Не найдено информации о домашней работе.", true⟩ : SendAttempt)]) ∧
    (∀ a ∈ [(⟨.errorNote, "Сбой в работе программы: Не найдено информации о домашней работе.", true⟩ : SendAttempt)],
      a.ok = false →
        (a.kind = .status → (Option.none : Option String) = Option.none) ∧
        (a.kind = .errorNote →
          some "Сбой в работе программы: Не найдено информации о домашней работе." = (Option.none : Option String))) :=
  dedup_state_updated_only_on_send_success
    ⟨PyValue.int 0, Option.none, Option.none⟩
    ⟨HttpOutcome.response 200
       (PyValue.dict [("homeworks", PyValue.list []), ("current_date", PyValue.int 1)]),
     alwaysOk, 0⟩
    ⟨PyValue.int 0, Option.none,
     some "Сбой в работе программы: Не найдено информации о домашней работе."⟩
    [⟨.errorNote, "Сбой в работе программы: Не найдено информации о домашней работе.", true⟩]
    rfl

/-- C6 witness: a successful cycle rebases the cursor to the response's
`current_date` (1000), and the failure clause holds vacuously. -/
theorem cursor_advance_policy_witness :
    ((∃ e a, runCycleBody ⟨PyValue.int 0, Option.none, Option.none⟩
        ⟨HttpOutcome.response 200
           (PyValue.dict [("homeworks", PyValue.list
              [PyValue.dict [("homework_name", PyValue.str "hw1"), ("status", PyValue.str "reviewing")]]),
            ("current_date", PyValue.int 1000)]),
         alwaysOk, 0⟩ = (.error e, a)) →
      PyValue.int 1000 = PyValue.int 0) ∧
    (∀ t a, runCycleBody ⟨PyValue.int 0, Option.none, Option.none⟩
        ⟨HttpOutcome.response 200
           (PyValue.dict [("homeworks", PyValue.list
              [PyValue.dict [("homework_name", PyValue.str "hw1"), ("status", PyValue.str "reviewing")]]),
            ("current_date", PyValue.int 1000)]),
         alwaysOk, 0⟩ = (.ok t, a) →
      ∃ body,
        HttpOutcome.response 200
          (PyValue.dict [("homeworks", PyValue.list
             [PyValue.dict [("homework_name", PyValue.str "hw1"), ("status", PyValue.str "reviewing")]]),
           ("current_date", PyValue.int 1000)]) = HttpOutcome.response 200 body ∧
        PyValue.int 1000 = body.getItemD "current_date") :=
  cursor_advance_policy
    ⟨PyValue.int 0, Option.none, Option.none⟩
    ⟨HttpOutcome.response 200
       (PyValue.dict [("homeworks", PyValue.list
          [PyValue.dict [("homework_name", PyValue.str "hw1"), ("status", PyValue.str "reviewing")]]),
        ("current_date", PyValue.int 1000)]),
     alwaysOk, 0⟩
    ⟨PyValue.int 1000,
     some "Изменился статус проверки работы \"hw1\". Работа взята на проверку ревьюером.",
     Option.none⟩
    [⟨.status, "Изменился статус проверки работы \"hw1\". Работа взята на проверку ревьюером.", true⟩]
    rfl
